import Mathlib

/-!
Verification of the multi-agent request router (agent_router.py, agents.py,
models.py, tools.py) via a shallow embedding of its data model, tool
registry and orchestration loop.

Filesystem access, the HTTP order-lookup layer and the streamed LLM provider
are collaborators external to the core; they are modelled as explicit
parameters (a path-status map, a network outcome, a list of stream chunks)
so that every repository function becomes a pure, executable Lean function
on those inputs.
-/

/-! ## Filesystem model

`directory_tool` and `file_tool` (tools.py) inspect one path: whether it
exists, whether it is a directory, and — for directories — the list of
entries, for files — the decoded text (`none` models a `UnicodeDecodeError`,
i.e. an undecodable binary file). -/

/-- One entry of a directory: a subdirectory, or a file with its byte size
(`item.stat().st_size`). -/
inductive DirEntry where
  | sub (name : String)
  | file (name : String) (size : Nat)
deriving DecidableEq

/-- Name of a directory entry (`item.name`). -/
def DirEntry.entryName : DirEntry → String
  | .sub n => n
  | .file n _ => n

/-- Status of one path on the filesystem: absent, an existing file
(with `some` decoded UTF-8 text, or `none` when undecodable), or an
existing directory with its entries. -/
inductive PathKind where
  | absent
  | file (content : Option String)
  | dir (entries : List DirEntry)
deriving DecidableEq

/-- Lexicographic code-point comparison of character lists, the order
Python string comparison uses. -/
def charListLe : List Char → List Char → Bool
  | [], _ => true
  | _ :: _, [] => false
  | a :: as, b :: bs =>
    if a.toNat < b.toNat then true
    else if b.toNat < a.toNat then false
    else charListLe as bs

/-- Python string `<=`: lexicographic on code points. -/
def pyStrLe (a b : String) : Bool := charListLe a.data b.data

/-- Insertion step for sorting directory entries by name. -/
def insertByName (e : DirEntry) : List DirEntry → List DirEntry
  | [] => [e]
  | x :: xs =>
    if pyStrLe e.entryName x.entryName then e :: x :: xs else x :: insertByName e xs

/-- Embedding of Python `sorted(dir_path.iterdir())` restricted to one
directory: its entries ordered lexicographically by name. -/
def sortByName : List DirEntry → List DirEntry
  | [] => []
  | x :: xs => insertByName x (sortByName xs)

/-- One-decimal fixed-point rendering of `num / den`, rounding half to even;
embeds Python `f"\x7bx:.1f\x7d"` applied to `size/1024` and
`size/(1024*1024)` in `directory_tool` (the binary-float rounding of CPython
agrees with the exact rational at every size appearing in these theorems). -/
def formatOneDecimal (num den : Nat) : String :=
  let t := num * 10
  let q := t / den
  let q := if 2 * (t % den) > den ∨ (2 * (t % den) = den ∧ q % 2 = 1) then q + 1 else q
  toString (q / 10) ++ "." ++ toString (q % 10)

/-- Size annotation of a file in a directory listing (tools.py lines 46-52):
`NB` below 1024 bytes, one-decimal `KB` below 1 MiB, else one-decimal `MB`. -/
def size_str (size : Nat) : String :=
  if size < 1024 then toString size ++ "B"
  else if size < 1024 * 1024 then formatOneDecimal size 1024 ++ "KB"
  else formatOneDecimal size (1024 * 1024) ++ "MB"

/-- Embedding of `directory_tool` (tools.py lines 29-61) over the status of
the requested path. OS errors raised while iterating an existing directory
(the `except` at line 60) are outside the filesystem model. -/
def directory_tool (directory : String) (fs : PathKind) : String :=
  match fs with
  | .absent => "[ERROR] Directory " ++ directory ++ " not found"
  | .file _ => "[ERROR] " ++ directory ++ " is not a directory"
  | .dir entries =>
    let items := (sortByName entries).map fun item =>
      match item with
      | .sub n => "📁 " ++ n ++ "/"
      | .file n size => "📄 " ++ n ++ " (" ++ size_str size ++ ")"
    if items.isEmpty then "Directory " ++ directory ++ " is empty"
    else "Contents of " ++ directory ++ ":\n" ++ String.intercalate "\n" items

/-- Split a character list at every newline (the groups between the
separators, like `str.split`). -/
def splitChars : List Char → List (List Char)
  | [] => [[]]
  | c :: rest =>
    if c = '\n' then [] :: splitChars rest
    else
      match splitChars rest with
      | [] => [[c]]
      | g :: gs => (c :: g) :: gs

/-- Embedding of Python `str.splitlines` restricted to `"\n"` separators
(the only line boundary exercised here): the empty string yields no lines,
and a trailing newline does not add an empty final line. -/
def splitlines (s : String) : List String :=
  if s.data.isEmpty then []
  else
    let parts := (splitChars s.data).map fun cs => String.mk cs
    if s.data.getLast? = some '\n' then parts.dropLast else parts

/-- Embedding of the Python list slice `xs[a:b]` for `a ≥ 0` (a negative
stop counts from the end of the list). -/
def pySlice (xs : List String) (a b : Int) : List String :=
  let n : Int := xs.length
  let b1 := if b < 0 then max 0 (n + b) else min b n
  (xs.take b1.toNat).drop (max 0 a).toNat

/-- Embedding of Python `f"\x7bi:4d\x7d"`: decimal rendering right-aligned in
a field of minimum width 4. -/
def format4d (i : Int) : String :=
  let s := toString i
  if s.length < 4 then String.mk (List.replicate (4 - s.length) ' ') ++ s
  else s

/-- The numbered selected lines of a `file_tool` result (tools.py lines
89-91): `enumerate(selected_lines, start=start_line)` rendered as
`f"\x7bi:4d\x7d: \x7bline\x7d"`. -/
def numberLines (start : Int) : List String → List String
  | [] => []
  | l :: ls => (format4d start ++ ": " ++ l) :: numberLines (start + 1) ls

/-- Embedding of `file_tool` (tools.py lines 63-105) over the status of the
requested path. -/
def file_tool (filepath : String) (start_line end_line : Int) (fs : PathKind) : String :=
  match fs with
  | .absent => "[ERROR] File " ++ filepath ++ " not found"
  | .dir _ => "[ERROR] " ++ filepath ++ " is a directory, not a file. Use directory_tool instead."
  | .file none => "[ERROR] Could not decode file " ++ filepath ++ " - it may be a binary file"
  | .file (some content) =>
    let lines := splitlines content
    let n : Int := lines.length
    let e1 : Int := if end_line = -1 then n else end_line
    let s1 : Int := max 1 start_line
    let e2 : Int := min n e1
    if s1 > n then
      "[ERROR] Start line " ++ toString s1 ++ " is beyond file length (" ++
        toString lines.length ++ " lines)"
    else
      let numbered := numberLines s1 (pySlice lines (s1 - 1) e2)
      "File: " ++ filepath ++ "\n" ++
      (if s1 = 1 ∧ e2 = n then
        "Full content (" ++ toString lines.length ++ " lines):\n"
      else
        "Lines " ++ toString s1 ++ "-" ++ toString e2 ++ " of " ++
          toString lines.length ++ " total lines:\n") ++
      String.intercalate "\n" numbered

/-! ## Network model and the order-lookup tool -/

/-- Outcome of the HTTP layer under `get_order_detail`: a body whose JSON
decodes (carried already re-serialized, as `json.dumps(response.json())`
returns it), a body that is not JSON (`response.json()` raises), or a
transport failure (`requests.get` raises). -/
inductive NetOutcome where
  | ok (body : String)
  | jsonError (msg : String)
  | netError (msg : String)
deriving DecidableEq

/-- Embedding of `get_order_detail` (tools.py lines 107-117): the function
wraps nothing in `try`/`except`, so a transport failure from `requests.get`
and a decode failure from `response.json()` both propagate as exceptions
(`Except.error`); only a decodable response is returned as a string. -/
def get_order_detail (net : NetOutcome) : Except String String :=
  match net with
  | .ok body => .ok body
  | .jsonError msg => .error msg
  | .netError msg => .error msg

/-! ## JSON argument parsing

Modelled from the spec: the standard library `json.loads` used at
agents.py line 137 is not part of the repository; it is modelled here
restricted to the flat JSON objects that tool-call arguments use — an
object of string keys to string or integer values, with `\"` and `\\`
escapes. Objects with repeated keys are outside the model. Every other
input yields `none` (a `json.JSONDecodeError`). -/

/-- A JSON value inside a tool-argument object: a string or an integer. -/
inductive JVal where
  | str (s : String)
  | num (n : Int)
deriving DecidableEq

/-- A parsed tool-argument object: key/value pairs in textual order. -/
abbrev ArgBag := List (String × JVal)

/-- Body of a JSON string after the opening quote: accumulate characters up
to the closing quote, honouring `\"` and `\\` escapes. -/
def jstrAux : List Char → String → Option (String × List Char)
  | [], _ => none
  | '\\' :: c :: rest, acc =>
    if c = '"' then jstrAux rest (acc.push '"')
    else if c = '\\' then jstrAux rest (acc.push '\\')
    else none
  | '"' :: rest, acc => some (acc, rest)
  | c :: rest, acc => jstrAux rest (acc.push c)

/-- Skip JSON whitespace. -/
def skipWs : List Char → List Char
  | [] => []
  | c :: rest =>
    if c = ' ' ∨ c = '\t' ∨ c = '\n' ∨ c = '\r' then skipWs rest else c :: rest

/-- Parse a JSON integer (optional minus sign, at least one digit). -/
def parseJNum (l : List Char) : Option (Int × List Char) :=
  let p := match l with
    | '-' :: r => (true, r)
    | _ => (false, l)
  let ds := p.2.takeWhile Char.isDigit
  let rest := p.2.dropWhile Char.isDigit
  if ds.isEmpty then none
  else
    let n : Nat := ds.foldl (fun a c => a * 10 + (c.toNat - 48)) 0
    some (if p.1 then -(n : Int) else (n : Int), rest)

/-- Parse a JSON value: a string or an integer. -/
def parseJVal (l : List Char) : Option (JVal × List Char) :=
  match l with
  | '"' :: rest => (jstrAux rest "").map fun p => (.str p.1, p.2)
  | _ => (parseJNum l).map fun p => (.num p.1, p.2)

/-- Parse one or more comma-separated `"key": value` pairs; the fuel bounds
recursion by the length of the remaining input. -/
def parsePairs : Nat → List Char → Option (ArgBag × List Char)
  | 0, _ => none
  | fuel + 1, l =>
    match skipWs l with
    | '"' :: rest =>
      match jstrAux rest "" with
      | none => none
      | some (key, rest1) =>
        match skipWs rest1 with
        | ':' :: rest2 =>
          match parseJVal (skipWs rest2) with
          | none => none
          | some (v, rest3) =>
            match skipWs rest3 with
            | ',' :: rest4 =>
              match parsePairs fuel rest4 with
              | none => none
              | some (bag, rest5) => some ((key, v) :: bag, rest5)
            | rest4 => some ([(key, v)], rest4)
        | _ => none
    | _ => none

/-- Modelled from the spec: stdlib `json.loads` restricted to flat objects
of string keys to string/integer values; `none` models
`json.JSONDecodeError`. -/
def json_loads (s : String) : Option ArgBag :=
  match skipWs s.toList with
  | '\x7b' :: rest =>
    match skipWs rest with
    | '\x7d' :: rest2 => if (skipWs rest2).isEmpty then some [] else none
    | _ =>
      match parsePairs (rest.length + 1) rest with
      | some (bag, rest2) =>
        match skipWs rest2 with
        | '\x7d' :: rest3 => if (skipWs rest3).isEmpty then some bag else none
        | _ => none
      | none => none
  | _ => none

example : json_loads "\x7b\"directory\":\"x\"\x7d" = some [("directory", JVal.str "x")] := by decide
example : json_loads "\x7bbad" = none := by decide
example : json_loads "\x7b\"filepath\": \"a.py\", \"start_line\": 2\x7d" =
    some [("filepath", JVal.str "a.py"), ("start_line", JVal.num 2)] := by decide

/-! ## Routing data model (models.py) and classifier (agent_router.py) -/

/-- Embedding of `AgentType` (models.py lines 5-9). -/
inductive AgentType where
  | developer_assistant
  | customer_assistant
  | general_assistant
deriving DecidableEq

/-- Embedding of `ExtractedParams` (models.py lines 11-15): three optional
string fields, closed to its declared fields. -/
structure ExtractedParams where
  directory : Option String
  file_path : Option String
  order_id : Option String
deriving DecidableEq

/-- Modelled from pydantic `BaseModel` construction: keyword arguments are
matched against the declared fields and — under the default `extra`
behaviour that `ExtractedParams` uses — any keyword that names no declared
field is silently discarded. -/
def ExtractedParams.fromKwargs (kwargs : List (String × String)) : ExtractedParams :=
  { directory := kwargs.lookup "directory"
    file_path := kwargs.lookup "file_path"
    order_id := kwargs.lookup "order_id" }

/-- Embedding of `model_dump(exclude_none=True)` on `ExtractedParams`
(agent_router.py line 67): the key/value pairs of the non-null fields, in
field-declaration order. -/
def ExtractedParams.dumpExcludeNone (p : ExtractedParams) : List (String × String) :=
  (match p.directory with | some d => [("directory", d)] | none => []) ++
  (match p.file_path with | some f => [("file_path", f)] | none => []) ++
  (match p.order_id with | some o => [("order_id", o)] | none => [])

/-- Embedding of `RouteClassification` (models.py lines 17-34); the float
confidence score is modelled as a rational. -/
structure RouteClassification where
  agent_type : AgentType
  confidence : Rat
  reasoning : String
  extracted_params : Option ExtractedParams
deriving DecidableEq

/-- Outcome of the structured-decision provider call at agent_router.py
lines 43-53: a parsed `RouteClassification`, or any raised exception
(timeout, malformed response, ...) carrying its rendering `str(e)`. -/
inductive ProviderOutcome where
  | parsed (r : RouteClassification)
  | raises (e : String)
deriving DecidableEq

/-- Embedding of `AgentRouter.classify_request` (agent_router.py lines
16-62) over the provider outcome: a parsed decision is returned as is; any
exception is caught and replaced by the fallback decision built at lines
57-62, whose `ExtractedParams(category="fallback")` construction goes
through the pydantic keyword-matching semantics of
`ExtractedParams.fromKwargs`. -/
def classify_request (outcome : ProviderOutcome) : RouteClassification :=
  match outcome with
  | .parsed r => r
  | .raises e =>
    { agent_type := .general_assistant
      confidence := 0.5
      reasoning := "Routing failed, defaulting to general assistant: " ++ e
      extracted_params := some (ExtractedParams.fromKwargs [("category", "fallback")]) }

/-- Embedding of `AgentRouter.extract_specific_params` (agent_router.py
lines 64-74). A pydantic model instance is always truthy, so the first
branch is taken whenever `extracted_params` is not `None`; the returned
mapping is modelled as an ordered key/value list. -/
def extract_specific_params (classification : RouteClassification)
    (user_prompt : String) : List (String × String) :=
  match classification.extracted_params with
  | some p =>
    let ep := p.dumpExcludeNone
    if ep.isEmpty then [("prompt", user_prompt)] else ep
  | none => [("prompt", user_prompt)]

/-! ## Tool registry dispatch (agents.py `BaseAgent.execute_tool`) -/

/-- The collaborator state a tool invocation can touch: the filesystem
(path ↦ status) and the order-service network layer. -/
structure ToolEnv where
  fs : String → PathKind
  net : NetOutcome

/-- Keyword extraction for `file_tool(**args)`: `filepath` is required and
the two line numbers default to `1` and `-1` (tools.py lines 63, 16-17);
a bag with an unexpected key or an ill-typed value yields `none`, which
`execute_tool` turns into the `TypeError` that the Python call would
raise. -/
def fileArgsOf (args : ArgBag) : Option (String × Int × Int) :=
  if args.all fun kv => kv.1 = "filepath" ∨ kv.1 = "start_line" ∨ kv.1 = "end_line" then
    match args.lookup "filepath", args.lookup "start_line", args.lookup "end_line" with
    | some (JVal.str f), none, none => some (f, 1, -1)
    | some (JVal.str f), some (JVal.num s), none => some (f, s, -1)
    | some (JVal.str f), none, some (JVal.num e) => some (f, 1, e)
    | some (JVal.str f), some (JVal.num s), some (JVal.num e) => some (f, s, e)
    | _, _, _ => none
  else none

/-- Embedding of `BaseAgent.execute_tool` (agents.py lines 32-42), the
dispatcher the orchestration loop invokes: the three known tools are called
with `**args` (an argument bag that does not match a tool's signature makes
the Python call raise `TypeError`, modelled as `Except.error`), and every
other name returns the fixed string `"Unknown tool"`. -/
def execute_tool (env : ToolEnv) (tool_name : String) (args : ArgBag) : Except String String :=
  if tool_name = "directory_tool" then
    match args with
    | [("directory", JVal.str d)] => .ok (directory_tool d (env.fs d))
    | _ => .error "TypeError: directory_tool() arguments do not match"
  else if tool_name = "file_tool" then
    match fileArgsOf args with
    | some (f, s, e) => .ok (file_tool f s e (env.fs f))
    | none => .error "TypeError: file_tool() arguments do not match"
  else if tool_name = "get_order_detail" then
    match args with
    | [("order_id", _)] => get_order_detail env.net
    | _ => .error "TypeError: get_order_detail() arguments do not match"
  else .ok "Unknown tool"

/-! ## Orchestration loop (agents.py `BaseAgent.process_request`)

The streamed provider is modelled as data: a request is driven by a list of
stream turns, each turn a list of chunks; a chunk carries an optional text
delta, a list of tool-call fragments, and an optional finish reason —
exactly the fields the loop reads from `chunk.choices[0]`. -/

/-- One assembled tool call of the accumulator / of an assistant tool-call
message: the loop's `\x7b"id": ..., "type": "function", "function": \x7b"name": ...,
"arguments": ...\x7d\x7d` dict with the constant `type` field dropped. -/
structure ToolCallMsg where
  id : String
  name : String
  arguments : String
deriving DecidableEq

/-- One streamed tool-call fragment (`tool_chunk` at agents.py line 98):
a slot index plus optional deltas for id, function name and arguments. -/
structure ToolCallChunk where
  index : Nat
  id : Option String
  name : Option String
  arguments : Option String
deriving DecidableEq

/-- One streamed chunk (`chunk.choices[0]` at agents.py lines 88-91). -/
structure Chunk where
  content : Option String
  tool_calls : List ToolCallChunk
  finish_reason : Option String
deriving DecidableEq

/-- One message of the conversation held in `messages`. The loop appends
only assistant tool-call batches and tool results; assistant text is
accumulated in `full_response` and never appended to `messages`. -/
inductive Message where
  | system (content : String)
  | user (content : String)
  | assistantText (content : String)
  | assistantToolCalls (calls : List ToolCallMsg)
  | toolResult (tool_name : String) (tool_call_id : String) (content : String)
deriving DecidableEq

/-- The loop's mutable locals: `messages`, `full_response`, the tool-call
accumulator `tool_calls`, and the `used_tools` audit list. -/
structure LoopState where
  messages : List Message
  full_response : String
  tool_calls : List ToolCallMsg
  used_tools : List String
deriving DecidableEq

/-- Python truthiness of an optional string: `None` and `""` are falsy. -/
def truthyOpt : Option String → Bool
  | none => false
  | some s => s != ""

/-- Append an optional delta to an accumulated string (`tc["id"] +=
tool_chunk.id` under its truthiness guard; appending the empty string is a
no-op, so the guard and the unconditional append agree). -/
def appendOpt (s : String) : Option String → String
  | none => s
  | some t => s ++ t

/-- Embedding of the per-fragment accumulation at agents.py lines 98-110:
grow the slot list by one empty slot when the index is just past the end,
then concatenate each present delta onto that slot's field. (When a
fragment's index skips past the end by more than one, Python would raise
`IndexError`; such streams are outside the model and leave the slots
unchanged here.) -/
def accumChunk (slots : List ToolCallMsg) (tc : ToolCallChunk) : List ToolCallMsg :=
  let slots1 := if slots.length ≤ tc.index then slots ++ [⟨"", "", ""⟩] else slots
  match slots1[tc.index]? with
  | none => slots1
  | some cur =>
    slots1.set tc.index
      ⟨appendOpt cur.id tc.id, appendOpt cur.name tc.name, appendOpt cur.arguments tc.arguments⟩

/-- Accumulation of all tool-call fragments of one chunk, in arrival
order. -/
def accumChunks (slots : List ToolCallMsg) (tcs : List ToolCallChunk) : List ToolCallMsg :=
  tcs.foldl accumChunk slots

/-- The result string fed back for one executed call (agents.py lines
141-144): the registry result, or — when the registry raises — the caught
exception rendered as an error string. -/
def execString (env : ToolEnv) (name : String) (args : ArgBag) : String :=
  match execute_tool env name args with
  | .ok r => r
  | .error e => "Error executing tool " ++ name ++ ": " ++ e

/-- Embedding of the per-call body of the batch loop (agents.py lines
129-151): the tool name is recorded in `used_tools` before the argument
parse; a `json.JSONDecodeError` skips the call (`continue`), otherwise the
registry is invoked and a tool-result message referencing the call's id is
appended. -/
def runCall (env : ToolEnv) (st : LoopState) (call : ToolCallMsg) : LoopState :=
  let used := st.used_tools ++ [call.name]
  match json_loads call.arguments with
  | none => { st with used_tools := used }
  | some args =>
    { st with
        used_tools := used
        messages := st.messages ++
          [.toolResult call.name call.id (execString env call.name args)] }

/-- Embedding of the batch dispatch at agents.py lines 113-153: append the
accumulated batch as one assistant message, run every slot in order, then
clear the accumulator. -/
def processBatch (env : ToolEnv) (st : LoopState) : LoopState :=
  let batch := st.tool_calls
  let st1 := { st with messages := st.messages ++ [.assistantToolCalls batch] }
  let st2 := batch.foldl (runCall env) st1
  { st2 with tool_calls := [] }

/-- Embedding of the per-chunk body of the stream loop (agents.py lines
88-153): accumulate a truthy text delta into `full_response`, else
accumulate tool-call fragments; then, when this chunk's finish reason is
`"tool_calls"` and the accumulator is non-empty, dispatch the batch. -/
def processChunk (env : ToolEnv) (st : LoopState) (c : Chunk) : LoopState :=
  let st1 :=
    if truthyOpt c.content then
      { st with full_response := appendOpt st.full_response c.content }
    else if !c.tool_calls.isEmpty then
      { st with tool_calls := accumChunks st.tool_calls c.tool_calls }
    else st
  if c.finish_reason = some "tool_calls" ∧ st1.tool_calls ≠ [] then processBatch env st1
  else st1

/-- One stream turn: the chunk loop `for chunk in stream` over the turn's
chunks. -/
def processTurn (env : ToolEnv) (st : LoopState) (chunks : List Chunk) : LoopState :=
  chunks.foldl (processChunk env) st

/-- The `finish_reason` local after a turn's chunk loop: the last chunk's
finish reason, or the incoming value when the turn is empty. -/
def lastFinish (fr : Option String) (chunks : List Chunk) : Option String :=
  chunks.foldl (fun _ c => c.finish_reason) fr

/-- Embedding of the `while True` loop of `process_request` (agents.py
lines 80-158) over the provided stream turns: process a turn, then stop
when its final finish reason is `"stop"`, else continue with the next
turn. -/
def runLoop (env : ToolEnv) (st : LoopState) (fr : Option String) :
    List (List Chunk) → LoopState
  | [] => st
  | t :: ts =>
    let st2 := processTurn env st t
    let fr2 := lastFinish fr t
    if fr2 = some "stop" then st2 else runLoop env st2 fr2 ts

/-- The initial conversation of `process_request` (agents.py lines 64-67):
the assembled system prompt and the user prompt. -/
def initState (system_prompt user_prompt : String) : LoopState :=
  { messages := [.system system_prompt, .user user_prompt]
    full_response := ""
    tool_calls := []
    used_tools := [] }

/-! ## Derived forms of the batch dispatch and conversation-state
predicates -/

/-- The tool-result messages one batch produces, slot by slot in slot
order: a slot whose arguments fail to parse contributes nothing (it is
skipped, not invoked); every other slot contributes one tool-result
message referencing that slot's call id. -/
def slotResults (env : ToolEnv) : List ToolCallMsg → List Message
  | [] => []
  | call :: rest =>
    match json_loads call.arguments with
    | none => slotResults env rest
    | some args =>
      .toolResult call.name call.id (execString env call.name args) :: slotResults env rest

/-- The tool-call ids one message introduces (none unless it is an
assistant tool-call batch). -/
def batchIdsOf : Message → List String
  | .assistantToolCalls calls => calls.map ToolCallMsg.id
  | _ => []

/-- All tool-call ids introduced by the batches of a conversation, in
order. -/
def collectIds : List Message → List String
  | [] => []
  | m :: ms => batchIdsOf m ++ collectIds ms

/-- Decides the conversation-state integrity invariant: walking the
conversation front to back with the set `seen` of tool-call ids introduced
so far, every tool-result message references an id of a preceding
assistant tool-call batch. -/
def resultsReferenced : List Message → List String → Bool
  | [], _ => true
  | m :: ms, seen =>
    match m with
    | .toolResult _ cid _ => seen.contains cid && resultsReferenced ms seen
    | .assistantToolCalls calls => resultsReferenced ms (seen ++ calls.map ToolCallMsg.id)
    | _ => resultsReferenced ms seen

/-- Number of assistant tool-call-batch messages in a conversation. -/
def countBatches (ms : List Message) : Nat :=
  (ms.filter fun m =>
    match m with
    | .assistantToolCalls _ => true
    | _ => false).length

theorem foldl_runCall_eq (env : ToolEnv) (batch : List ToolCallMsg) :
    ∀ st : LoopState,
      batch.foldl (runCall env) st =
        { st with
            messages := st.messages ++ slotResults env batch
            used_tools := st.used_tools ++ batch.map ToolCallMsg.name } := by
  induction batch with
  | nil => intro st; simp [slotResults]
  | cons c rest ih =>
    intro st
    rw [List.foldl_cons, ih]
    cases h : json_loads c.arguments with
    | none => simp [runCall, h, slotResults]
    | some args => simp [runCall, h, slotResults, List.append_assoc]

theorem processBatch_eq (env : ToolEnv) (st : LoopState) :
    processBatch env st =
      { st with
          messages := st.messages ++ [Message.assistantToolCalls st.tool_calls] ++
            slotResults env st.tool_calls
          used_tools := st.used_tools ++ st.tool_calls.map ToolCallMsg.name
          tool_calls := [] } := by
  simp [processBatch, foldl_runCall_eq, List.append_assoc]

/-! ## Claim C1 — batch processing on a "tool_calls" finish reason -/

/-- C1: when a streamed turn finishes with reason `"tool_calls"`, the
accumulated batch is appended to the conversation as one assistant
message and the slots are processed in slot order — a slot whose
arguments fail to parse as JSON is skipped (no invocation, no tool-result)
while every other slot yields a tool-result message referencing its call
id, with the tool names recorded in the `used_tools` audit list; the
accumulator is then cleared, and the driver starts the next stream turn
unless and until a turn's final finish reason is `"stop"`. -/
theorem C1_batch_dispatch :
    (∀ (env : ToolEnv) (st : LoopState) (c : Chunk),
      c.content = none → c.tool_calls = [] → c.finish_reason = some "tool_calls" →
      st.tool_calls ≠ [] →
      processChunk env st c =
        { st with
            messages := st.messages ++ [Message.assistantToolCalls st.tool_calls] ++
              slotResults env st.tool_calls
            used_tools := st.used_tools ++ st.tool_calls.map ToolCallMsg.name
            tool_calls := [] })
    ∧ (∀ (env : ToolEnv) (st : LoopState) (fr : Option String)
        (t : List Chunk) (ts : List (List Chunk)),
        runLoop env st fr (t :: ts) =
          if lastFinish fr t = some "stop" then processTurn env st t
          else runLoop env (processTurn env st t) (lastFinish fr t) ts) := by
  constructor
  · intro env st c hc ht hf hne
    simp [processChunk, hc, ht, hf, truthyOpt, hne, processBatch_eq]
  · intro env st fr t ts
    rfl

/-- Environment for the C1 witness: path `"d"` is a directory holding one
subdirectory `b`. -/
def envC1 : ToolEnv :=
  { fs := fun p => if p = "d" then PathKind.dir [DirEntry.sub "b"] else PathKind.absent
    net := NetOutcome.ok "" }

/-- State for the C1 witness: an accumulated batch whose first slot has
malformed JSON arguments and whose second slot calls `directory_tool`. -/
def stC1 : LoopState :=
  { messages := [Message.system "s", Message.user "u"]
    full_response := ""
    tool_calls := [⟨"id1", "file_tool", "\x7bbad"⟩,
                   ⟨"id2", "directory_tool", "\x7b\"directory\":\"d\"\x7d"⟩]
    used_tools := [] }

/-- The finishing chunk for the C1 witness. -/
def cC1 : Chunk := { content := none, tool_calls := [], finish_reason := some "tool_calls" }

/-- Witness for C1 at a concrete batch: the malformed slot `id1` is
skipped (no tool-result message, though its name still enters the audit
list before the parse), the well-formed slot `id2` is invoked and answered
with a tool-result referencing `id2`, and the accumulator ends empty. -/
theorem C1_batch_dispatch_witness :
    processChunk envC1 stC1 cC1 =
      { messages := [Message.system "s", Message.user "u",
          Message.assistantToolCalls [⟨"id1", "file_tool", "\x7bbad"⟩,
            ⟨"id2", "directory_tool", "\x7b\"directory\":\"d\"\x7d"⟩],
          Message.toolResult "directory_tool" "id2" "Contents of d:\n📁 b/"]
        full_response := ""
        tool_calls := []
        used_tools := ["file_tool", "directory_tool"] } := by
  have h := C1_batch_dispatch.1 envC1 stC1 cC1 rfl rfl rfl (by decide)
  exact h.trans (by decide)

/-! ## Claim C2 — fragment accumulation by concatenation -/

/-- The four fragments of the spec's accumulation example, all targeting
slot 0. -/
def fragmentsC2 : List ToolCallChunk :=
  [⟨0, some "a", none, none⟩,
   ⟨0, none, some "dir", none⟩,
   ⟨0, none, none, some "\x7b\"dir"⟩,
   ⟨0, none, none, some "ectory\":\"x\"\x7d"⟩]

/-- C2: per-slot id/name/arguments deltas are accumulated by string
concatenation in arrival order and never overwritten — a fragment for an
existing slot concatenates each present delta onto that slot's fields and
leaves every other slot unchanged, a fragment for the next fresh slot
starts that slot from empty fields — and the spec's four-fragment example
assembles to `id = "a"`, `name = "dir"`,
`arguments = "\x7b\"directory\":\"x\"\x7d"`, whose arguments parse to the bag
`\x7b"directory": "x"\x7d`. -/
theorem C2_fragment_accumulation :
    (∀ (slots : List ToolCallMsg) (tc : ToolCallChunk) (old : ToolCallMsg),
      slots[tc.index]? = some old →
      (accumChunk slots tc)[tc.index]? =
          some ⟨appendOpt old.id tc.id, appendOpt old.name tc.name,
                appendOpt old.arguments tc.arguments⟩
        ∧ ∀ j, j ≠ tc.index → (accumChunk slots tc)[j]? = slots[j]?)
    ∧ (∀ (slots : List ToolCallMsg) (tc : ToolCallChunk),
        tc.index = slots.length →
        (accumChunk slots tc)[tc.index]? =
          some ⟨appendOpt "" tc.id, appendOpt "" tc.name, appendOpt "" tc.arguments⟩)
    ∧ accumChunks [] fragmentsC2 = [⟨"a", "dir", "\x7b\"directory\":\"x\"\x7d"⟩]
    ∧ json_loads "\x7b\"directory\":\"x\"\x7d" = some [("directory", JVal.str "x")] := by
  refine ⟨?_, ?_, by decide, by decide⟩
  · intro slots tc old h
    have hlt : tc.index < slots.length := (List.getElem?_eq_some.mp h).1
    have hif : ¬ slots.length ≤ tc.index := Nat.not_le.mpr hlt
    constructor
    · simp only [accumChunk, hif, if_false, h]
      exact List.getElem?_set_self hlt
    · intro j hj
      simp only [accumChunk, hif, if_false, h]
      exact List.getElem?_set_ne (fun he => hj he.symm)
  · intro slots tc h
    have hif : slots.length ≤ tc.index := h.ge
    simp only [accumChunk, hif, if_true]
    rw [h, List.getElem?_concat_length]
    have hlt : slots.length < (slots ++ [(⟨"", "", ""⟩ : ToolCallMsg)]).length := by
      simp
    show ((slots ++ [(⟨"", "", ""⟩ : ToolCallMsg)]).set slots.length
        ⟨appendOpt "" tc.id, appendOpt "" tc.name, appendOpt "" tc.arguments⟩)[slots.length]? =
      some ⟨appendOpt "" tc.id, appendOpt "" tc.name, appendOpt "" tc.arguments⟩
    exact List.getElem?_set_self hlt

/-- Witness for C2: a fragment onto an existing slot concatenates (id
`"x"`+`"a"`, arguments `"z"`+`"b"`, name untouched), and a fragment onto a
fresh slot starts from empty fields. -/
theorem C2_fragment_accumulation_witness :
    (accumChunk [⟨"x", "y", "z"⟩] ⟨0, some "a", none, some "b"⟩)[0]? =
        some ⟨"xa", "y", "zb"⟩
      ∧ (accumChunk [] ⟨0, some "a", none, none⟩)[0]? = some ⟨"a", "", ""⟩ := by
  have h1 := C2_fragment_accumulation.1 [⟨"x", "y", "z"⟩]
    ⟨0, some "a", none, some "b"⟩ ⟨"x", "y", "z"⟩ rfl
  have h2 := C2_fragment_accumulation.2.1 [] ⟨0, some "a", none, none⟩ rfl
  exact ⟨h1.1.trans (by decide), h2.trans (by decide)⟩

/-! ## Claim C3 — conversation-state integrity -/

theorem resultsReferenced_append (ms ns : List Message) :
    ∀ seen, resultsReferenced (ms ++ ns) seen =
      (resultsReferenced ms seen && resultsReferenced ns (seen ++ collectIds ms)) := by
  induction ms with
  | nil => intro seen; simp [resultsReferenced, collectIds]
  | cons m ms ih =>
    intro seen
    cases m <;>
      simp [resultsReferenced, collectIds, batchIdsOf, ih, Bool.and_assoc, List.append_assoc]

theorem resultsReferenced_slotResults (env : ToolEnv) (batch : List ToolCallMsg) :
    ∀ seen : List String, (∀ call ∈ batch, seen.contains call.id = true) →
      resultsReferenced (slotResults env batch) seen = true := by
  induction batch with
  | nil => intro seen _; rfl
  | cons c rest ih =>
    intro seen hmem
    have h2 := ih seen fun call hc => hmem call (List.mem_cons_of_mem _ hc)
    cases h : json_loads c.arguments with
    | none => simpa [slotResults, h] using h2
    | some args =>
      have h1 : c.id ∈ seen := by simpa using hmem c (List.mem_cons_self c rest)
      simp [slotResults, h, resultsReferenced, h1, h2]

theorem resultsReferenced_processBatch (env : ToolEnv) (st : LoopState) (seen : List String)
    (h : resultsReferenced st.messages seen = true) :
    resultsReferenced (processBatch env st).messages seen = true := by
  rw [processBatch_eq]
  show resultsReferenced (st.messages ++ [Message.assistantToolCalls st.tool_calls] ++
    slotResults env st.tool_calls) seen = true
  rw [List.append_assoc, resultsReferenced_append, h, Bool.true_and,
    resultsReferenced_append]
  have h1 : resultsReferenced [Message.assistantToolCalls st.tool_calls]
      (seen ++ collectIds st.messages) = true := rfl
  rw [h1, Bool.true_and]
  apply resultsReferenced_slotResults
  intro call hc
  have hmem : call.id ∈ collectIds [Message.assistantToolCalls st.tool_calls] := by
    simp only [collectIds, batchIdsOf, List.append_nil, List.mem_map]
    exact ⟨call, hc, rfl⟩
  have hmem2 : call.id ∈ (seen ++ collectIds st.messages) ++
      collectIds [Message.assistantToolCalls st.tool_calls] :=
    List.mem_append_right (seen ++ collectIds st.messages) hmem
  simpa using hmem2

theorem resultsReferenced_processChunk (env : ToolEnv) (st : LoopState) (c : Chunk)
    (seen : List String) (h : resultsReferenced st.messages seen = true) :
    resultsReferenced (processChunk env st c).messages seen = true := by
  have key : ∀ st1 : LoopState, st1.messages = st.messages →
      resultsReferenced
        (if c.finish_reason = some "tool_calls" ∧ st1.tool_calls ≠ []
          then processBatch env st1 else st1).messages seen = true := by
    intro st1 he
    split
    · exact resultsReferenced_processBatch env st1 seen (he ▸ h)
    · exact he ▸ h
  simp only [processChunk]
  split
  · exact key _ rfl
  · split
    · exact key _ rfl
    · exact key _ rfl

theorem resultsReferenced_processTurn (env : ToolEnv) (chunks : List Chunk) :
    ∀ (st : LoopState) (seen : List String), resultsReferenced st.messages seen = true →
      resultsReferenced (processTurn env st chunks).messages seen = true := by
  induction chunks with
  | nil => intro st seen h; exact h
  | cons c cs ih =>
    intro st seen h
    exact ih _ seen (resultsReferenced_processChunk env st c seen h)

theorem resultsReferenced_runLoop (env : ToolEnv) (turns : List (List Chunk)) :
    ∀ (st : LoopState) (fr : Option String) (seen : List String),
      resultsReferenced st.messages seen = true →
      resultsReferenced (runLoop env st fr turns).messages seen = true := by
  induction turns with
  | nil => intro st fr seen h; exact h
  | cons t ts ih =>
    intro st fr seen h
    simp only [runLoop]
    split
    · exact resultsReferenced_processTurn env t st seen h
    · exact ih _ _ seen (resultsReferenced_processTurn env t st seen h)

/-- C3: in every conversation state the orchestration loop reaches from
its initial two-message conversation, every tool-result message references
a tool-call id introduced by a preceding assistant tool-call-batch message
(no orphaned tool-results); and a chunk whose finish reason does not
signal `"tool_calls"` appends no message at all — in particular no
assistant tool-call batch. -/
theorem C3_conversation_integrity :
    (∀ (env : ToolEnv) (sys usr : String) (turns : List (List Chunk)),
      resultsReferenced (runLoop env (initState sys usr) none turns).messages [] = true)
    ∧ (∀ (env : ToolEnv) (st : LoopState) (c : Chunk),
        c.finish_reason ≠ some "tool_calls" →
        (processChunk env st c).messages = st.messages) := by
  constructor
  · intro env sys usr turns
    exact resultsReferenced_runLoop env turns _ none [] rfl
  · intro env st c hfr
    simp only [processChunk]
    rw [if_neg fun hand => hfr hand.1]
    split
    · rfl
    · split
      · rfl
      · rfl

/-- A streamed fragment chunk for the C3 witness: one `directory_tool`
call arriving in slot 0. -/
def fragC3 : Chunk :=
  { content := none
    tool_calls := [⟨0, some "c1", some "directory_tool", some "\x7b\"directory\":\"d\"\x7d"⟩]
    finish_reason := none }

/-- The "tool calls requested" finishing chunk for the C3 witness. -/
def finC3 : Chunk := { content := none, tool_calls := [], finish_reason := some "tool_calls" }

/-- The plain-completion chunk for the C3 witness. -/
def stopC3 : Chunk := { content := some "done", tool_calls := [], finish_reason := some "stop" }

/-- The C3 witness stream: one turn that requests a tool call, then a turn
that completes. -/
def turnsC3 : List (List Chunk) := [[fragC3, finC3], [stopC3]]

/-- Witness for C3 on a concrete two-turn stream with one dispatched tool
call, and on a concrete chunk whose finish reason is `"stop"`. -/
theorem C3_conversation_integrity_witness :
    resultsReferenced (runLoop envC1 (initState "s" "u") none turnsC3).messages [] = true
    ∧ (processChunk envC1 (initState "s" "u") stopC3).messages =
        (initState "s" "u").messages := by
  exact ⟨C3_conversation_integrity.1 envC1 "s" "u" turnsC3,
    C3_conversation_integrity.2 envC1 (initState "s" "u") stopC3 (by decide)⟩

/-! ## Claim C4 — classifier fallback decision -/

/-- C4 (code bug): for every failure cause, the classifier catches the
provider exception and returns agent_kind General, confidence 0.5, and a
reasoning string ending in the cause — but its extracted parameters carry
no `category` key at all: the `category="fallback"` keyword passed at
agent_router.py line 61 names no declared field of `ExtractedParams`
(models.py lines 11-15), pydantic silently discards it, and the fallback
parameter object dumps to the empty mapping. -/
theorem C4_fallback_decision :
    (∀ e : String,
      (classify_request (.raises e)).agent_type = AgentType.general_assistant
      ∧ (classify_request (.raises e)).confidence = 0.5
      ∧ (classify_request (.raises e)).reasoning =
          "Routing failed, defaulting to general assistant: " ++ e
      ∧ ((classify_request (.raises e)).extracted_params.map
          ExtractedParams.dumpExcludeNone) = some [])
    ∧ (classify_request (.raises "boom")).extracted_params =
        some ⟨none, none, none⟩ := by
  exact ⟨fun e => ⟨rfl, rfl, rfl, rfl⟩, rfl⟩

/-! ## Claim C5 — error encoding of the tool registry and the loop -/

theorem string_split_pre (p q d s : String) :
    (p ++ q) ++ d ++ s = p ++ ((q ++ d) ++ s) := by
  simp [String.append_assoc]

/-- Environment for the C5 counterexample: the order-service transport
layer fails. -/
def envC5 : ToolEnv :=
  { fs := fun _ => PathKind.absent, net := NetOutcome.netError "connection refused" }

/-- Counterexample to C5 as stated: an invocation of the tool registry CAN
raise — `get_order_detail` wraps neither `requests.get` nor
`response.json()`, so under a transport failure the registry invocation
raises (`Except.error`) instead of returning an `"[ERROR]"`-prefixed
result string. -/
theorem C5_registry_can_raise :
    execute_tool envC5 "get_order_detail" [("order_id", JVal.num 1)] =
      Except.error "connection refused" := by
  rfl

/-- C5 (amended): the two filesystem tools never raise — invoked through
the registry with their signature-matching argument bags they always
return a result string, and each of their failure modes (missing path,
wrong path kind, undecodable content) is a result string prefixed
`"[ERROR]"` — while an exception that does escape the registry (such as
the order lookup's network failure) is caught by the orchestration loop's
per-call body and converted into an `"Error executing tool ..."`
tool-result message rather than propagated further. -/
theorem C5_amended_error_encoding :
    (∀ (env : ToolEnv) (d : String),
      (execute_tool env "directory_tool" [("directory", JVal.str d)]).isOk = true)
    ∧ (∀ (env : ToolEnv) (f : String),
        (execute_tool env "file_tool" [("filepath", JVal.str f)]).isOk = true)
    ∧ (∀ d : String, ∃ rest, directory_tool d PathKind.absent = "[ERROR]" ++ rest)
    ∧ (∀ (d : String) (c : Option String), ∃ rest,
        directory_tool d (PathKind.file c) = "[ERROR]" ++ rest)
    ∧ (∀ (f : String) (a b : Int), ∃ rest,
        file_tool f a b PathKind.absent = "[ERROR]" ++ rest)
    ∧ (∀ (f : String) (a b : Int) (es : List DirEntry), ∃ rest,
        file_tool f a b (PathKind.dir es) = "[ERROR]" ++ rest)
    ∧ (∀ (f : String) (a b : Int), ∃ rest,
        file_tool f a b (PathKind.file none) = "[ERROR]" ++ rest)
    ∧ (∀ (env : ToolEnv) (st : LoopState) (call : ToolCallMsg) (args : ArgBag) (e : String),
        json_loads call.arguments = some args →
        execute_tool env call.name args = Except.error e →
        runCall env st call =
          { st with
              used_tools := st.used_tools ++ [call.name]
              messages := st.messages ++
                [Message.toolResult call.name call.id
                  ("Error executing tool " ++ call.name ++ ": " ++ e)] }) := by
  refine ⟨fun env d => rfl, fun env f => rfl, ?_, ?_, ?_, ?_, ?_, ?_⟩
  · intro d
    exact ⟨" Directory " ++ d ++ " not found",
      string_split_pre "[ERROR]" " Directory " d " not found"⟩
  · intro d c
    exact ⟨" " ++ d ++ " is not a directory",
      string_split_pre "[ERROR]" " " d " is not a directory"⟩
  · intro f a b
    exact ⟨" File " ++ f ++ " not found",
      string_split_pre "[ERROR]" " File " f " not found"⟩
  · intro f a b es
    exact ⟨" " ++ f ++ " is a directory, not a file. Use directory_tool instead.",
      string_split_pre "[ERROR]" " " f " is a directory, not a file. Use directory_tool instead."⟩
  · intro f a b
    exact ⟨" Could not decode file " ++ f ++ " - it may be a binary file",
      string_split_pre "[ERROR]" " Could not decode file " f " - it may be a binary file"⟩
  · intro env st call args e hj he
    simp [runCall, hj, execString, he]

/-- Witness for C5 (amended) at a concrete call: an order lookup whose
transport layer fails produces a tool-result message carrying the caught
exception as an error string, and nothing propagates. -/
theorem C5_amended_error_encoding_witness :
    runCall envC5 (initState "s" "u") ⟨"id9", "get_order_detail", "\x7b\"order_id\": 7\x7d"⟩ =
      { messages := [Message.system "s", Message.user "u",
          Message.toolResult "get_order_detail" "id9"
            "Error executing tool get_order_detail: connection refused"]
        full_response := ""
        tool_calls := []
        used_tools := ["get_order_detail"] } := by
  have h := C5_amended_error_encoding.2.2.2.2.2.2.2 envC5 (initState "s" "u")
    ⟨"id9", "get_order_detail", "\x7b\"order_id\": 7\x7d"⟩ [("order_id", JVal.num 7)]
    "connection refused" (by decide) (by rfl)
  exact h.trans (by decide)

/-! ## Claim C6 — directory listing order and rendering -/

/-- C6 (code bug): evaluating `directory_tool` on a directory holding the
file `a.txt` and the subdirectory `b` lists the FILE line before the
directory line — the single `sorted(dir_path.iterdir())` pass interleaves
files and directories lexicographically, despite the `List directories
first` comment above it (tools.py line 40) — while the rest of the claim
holds: 1023 bytes render as `"1023B"`, 1024 bytes render in one-decimal
KiB form, an absent path fails with the not-found error string, a
non-directory with the not-a-directory error string, and an empty
directory reports `is empty`. -/
theorem C6_listing_order :
    directory_tool "d" (PathKind.dir [DirEntry.file "a.txt" 3, DirEntry.sub "b"]) =
      "Contents of d:\n📄 a.txt (3B)\n📁 b/"
    ∧ size_str 1023 = "1023B"
    ∧ size_str 1024 = "1.0KB"
    ∧ directory_tool "d" PathKind.absent = "[ERROR] Directory d not found"
    ∧ directory_tool "d" (PathKind.file none) = "[ERROR] d is not a directory"
    ∧ directory_tool "d" (PathKind.dir []) = "Directory d is empty" := by
  exact ⟨by decide, by decide, by decide, rfl, rfl, rfl⟩

/-! ## Claim C7 — file_tool full-range law -/

theorem numberLines_length (s : Int) (ls : List String) :
    (numberLines s ls).length = ls.length := by
  induction ls generalizing s with
  | nil => rfl
  | cons l ls ih => simp [numberLines, ih]

theorem numberLines_idx (ls : List String) :
    ∀ (s : Int) (k : Nat),
      (numberLines s ls)[k]? = (ls[k]?).map fun l => format4d (s + k) ++ ": " ++ l := by
  induction ls with
  | nil => intro s k; simp [numberLines]
  | cons l ls ih =>
    intro s k
    cases k with
    | zero => simp [numberLines]
    | succ k =>
      simp only [numberLines, List.getElem?_cons_succ, ih (s + 1) k]
      cases h : ls[k]? with
      | none => rfl
      | some x =>
        have heq : s + 1 + (k : Int) = s + (((k + 1 : Nat)) : Int) := by push_cast; ring
        show some (format4d (s + 1 + (k : Int)) ++ ": " ++ x) =
          some (format4d (s + (((k + 1 : Nat)) : Int)) ++ ": " ++ x)
        rw [heq]

theorem pySlice_full (xs : List String) : pySlice xs 0 (xs.length : Int) = xs := by
  simp only [pySlice]
  rw [if_neg (show ¬ ((xs.length : Int) < 0) by omega)]
  simp

/-- C7: on a readable text file with at least one line, the full-content
request `file_tool(path, 1, -1)` returns every line under the
`Full content (N lines)` header, each line prefixed by its 1-based line
number right-aligned to width 4 and a colon-space separator; and the
out-of-range request `file_tool(path, N+5, -1)` fails with the OutOfRange
error string. -/
theorem C7_full_range (path content : String)
    (h : 1 ≤ (splitlines content).length) :
    (file_tool path 1 (-1) (.file (some content)) =
      "File: " ++ path ++ "\n" ++
        ("Full content (" ++ toString (splitlines content).length ++ " lines):\n") ++
        String.intercalate "\n" (numberLines 1 (splitlines content)))
    ∧ (numberLines 1 (splitlines content)).length = (splitlines content).length
    ∧ (∀ k : Nat, (numberLines 1 (splitlines content))[k]? =
        ((splitlines content)[k]?).map fun l => format4d (1 + (k : Int)) ++ ": " ++ l)
    ∧ file_tool path (((splitlines content).length : Int) + 5) (-1) (.file (some content)) =
        "[ERROR] Start line " ++ toString (((splitlines content).length : Int) + 5) ++
          " is beyond file length (" ++ toString (splitlines content).length ++ " lines)" := by
  refine ⟨?_, numberLines_length 1 (splitlines content),
    fun k => numberLines_idx (splitlines content) 1 k, ?_⟩
  · have hne : splitlines content ≠ [] := List.length_pos.mp (by omega)
    simp only [file_tool]
    norm_num
    rw [if_neg hne, pySlice_full]
  · have hmax : (1 : Int) ⊔ (((splitlines content).length : Int) + 5) =
        ((splitlines content).length : Int) + 5 := max_eq_right (by omega)
    simp only [file_tool]
    norm_num [hmax]

/-- Witness for C7 on a concrete two-line file. -/
theorem C7_full_range_witness :
    file_tool "f" 1 (-1) (.file (some "a\nb")) =
      "File: f\nFull content (2 lines):\n   1: a\n   2: b"
    ∧ file_tool "f" 7 (-1) (.file (some "a\nb")) =
      "[ERROR] Start line 7 is beyond file length (2 lines)" := by
  have h := C7_full_range "f" "a\nb" (by decide)
  exact ⟨h.1.trans (by decide), (h.2.2.2).trans (by decide)⟩

/-! ## Claim C8 — unknown tool names -/

/-- C8: for every tool name outside the closed set of `directory_tool`,
`file_tool` and `get_order_detail`, dispatching the invocation by name
reaches the final `else` of `BaseAgent.execute_tool` and returns the
fixed string `"Unknown tool"` rather than failing. -/
theorem C8_unknown_tool (env : ToolEnv) (tool_name : String) (args : ArgBag)
    (h1 : tool_name ≠ "directory_tool") (h2 : tool_name ≠ "file_tool")
    (h3 : tool_name ≠ "get_order_detail") :
    execute_tool env tool_name args = Except.ok "Unknown tool" := by
  simp [execute_tool, h1, h2, h3]

/-- Witness for C8 at the unknown name `"weather_tool"`. -/
theorem C8_unknown_tool_witness :
    execute_tool ⟨fun _ => PathKind.absent, NetOutcome.ok ""⟩ "weather_tool" [] =
      Except.ok "Unknown tool" :=
  C8_unknown_tool ⟨fun _ => PathKind.absent, NetOutcome.ok ""⟩ "weather_tool" []
    (by decide) (by decide) (by decide)

/-! ## Claim C9 — parameter-bag normalization -/

/-- C9: `extract_specific_params` returns exactly the key/value mapping of
the non-null fields of `extracted_params`; when `extracted_params` is
absent or every one of its fields is null, it returns exactly the
singleton mapping from `prompt` to the original user text; hence the
returned parameter bag is never empty. -/
theorem C9_extract_specific_params (classification : RouteClassification)
    (user_prompt : String) :
    (∀ p : ExtractedParams, classification.extracted_params = some p →
      p.dumpExcludeNone ≠ [] →
      extract_specific_params classification user_prompt = p.dumpExcludeNone)
    ∧ ((classification.extracted_params = none ∨
        classification.extracted_params = some ⟨none, none, none⟩) →
      extract_specific_params classification user_prompt = [("prompt", user_prompt)])
    ∧ extract_specific_params classification user_prompt ≠ [] := by
  refine ⟨?_, ?_, ?_⟩
  · intro p hp hne
    simp only [extract_specific_params, hp]
    rw [if_neg (by simpa [List.isEmpty_iff] using hne)]
  · rintro (hp | hp) <;>
      simp [extract_specific_params, hp, ExtractedParams.dumpExcludeNone]
  · cases hp : classification.extracted_params with
    | none => simp [extract_specific_params, hp]
    | some p =>
      simp only [extract_specific_params, hp]
      split
      · simp
      · simpa [List.isEmpty_iff] using (by assumption : ¬ p.dumpExcludeNone.isEmpty = true)

/-- A classification with one extracted parameter, for the C9 witness. -/
def rcC9 : RouteClassification :=
  { agent_type := .developer_assistant
    confidence := 1
    reasoning := "directory request"
    extracted_params := some ⟨some "project/logs", none, none⟩ }

/-- A classification whose extracted parameters are all null, for the C9
witness. -/
def rcC9fb : RouteClassification :=
  { agent_type := .general_assistant
    confidence := 0.5
    reasoning := "fallback"
    extracted_params := some ⟨none, none, none⟩ }

/-- Witness for C9: one non-null field yields exactly that field's
mapping; all-null fields yield exactly the prompt mapping. -/
theorem C9_extract_specific_params_witness :
    extract_specific_params rcC9 "analyze logs" = [("directory", "project/logs")]
    ∧ extract_specific_params rcC9fb "hi" = [("prompt", "hi")] := by
  have h1 := (C9_extract_specific_params rcC9 "analyze logs").1
    ⟨some "project/logs", none, none⟩ rfl (by decide)
  have h2 := (C9_extract_specific_params rcC9fb "hi").2.1 (Or.inr rfl)
  exact ⟨h1.trans (by decide), h2⟩

/-! ## Claim C10 — full-content request on an empty file -/

/-- C10: on an existing, decodable file whose content splits into zero
lines (the empty file), the full-content request `file_tool(path, 1, -1)`
does not return a `Full content (0 lines)` listing: `end_line` resolves to
0, the clamped start line 1 exceeds the zero-line count, and the call
returns the OutOfRange error string. -/
theorem C10_empty_file (path : String) :
    file_tool path 1 (-1) (.file (some "")) =
      "[ERROR] Start line 1 is beyond file length (0 lines)" := by
  rfl
